import Mathlib

/-!
# Backup manager of the etcd operator (`pkg/cluster/backup_manager.go`)

A shallow embedding of `backupManager` and its five functions
(`newBackupManager`, `setup`, `setupStorage`, `runSidecar`, `cleanup`).

* The packages `backupstorage`, `k8sutil`, `spec` and `logrus` are outside the
  file.  Their functions are the fields of `Deps`; the ones that receive the
  Kubernetes client or belong to a storage handle act on an abstract world `σ`.
* Every call that leaves the file is recorded, in order, in a trace of `Event`s,
  so that "is called", "is called before" and "is never called" can be stated.
* Go pointers that the file receives or hands on (`*spec.BackupPolicy`,
  `*spec.RestorePolicy`, `*api.PodSpec`) and the interface `backupstorage.Storage`
  are `Option`s; dereferencing `nil` ends the run with `Outcome.panicked`.
* A Go `error` is its message; `nil` is `none`.
-/

namespace Cluster

/-- A Go `error` value, identified with the text `Error()` returns. -/
structure GoError where
  msg : String
deriving DecidableEq, Repr

/-- The call `fmt.Errorf(format, err)` for a format that is `text ++ "%v"`:
the new error's message is `text` followed by the message of `err`. -/
def Errorf (text : String) (err : GoError) : GoError :=
  ⟨text ++ err.msg⟩

/-- Modelled from the spec: the declaration of `spec.BackupStorageType` is outside the
source file. The file switches on three distinct constants of it, the spec's three
enum values; the spec calls any further value an unmatched one, and a Go type that
carries constants always has such values: they are `Other`. -/
inductive BackupStorageType where
  | PersistentVolume
  | S3
  | Default
  | Other (v : String)
deriving DecidableEq, Repr

/-- Modelled from the spec: the declaration of the struct `spec.BackupPolicy` is outside
the source file. The file reads `StorageType` only; the backend-specific parameters
travel with the value untouched, as `rest`. -/
structure BackupPolicy where
  StorageType : BackupStorageType
  rest : String
deriving DecidableEq, Repr

/-- Modelled from the spec: the declaration of the struct `spec.RestorePolicy` is outside
the source file. It names the source cluster; the file reads `BackupClusterName`
only. -/
structure RestorePolicy where
  BackupClusterName : String
deriving DecidableEq, Repr

/-- Modelled from the spec: the type of `Config.KubeCli`, the handle to the
orchestration client, is outside the source file. The file only hands it on. -/
structure KubeCli where
  id : Nat
deriving DecidableEq, Repr

/-- Modelled from the spec: the type of `Config.S3Context`, the object-store context,
is outside the source file. The file only hands it on. -/
structure S3Context where
  id : Nat
deriving DecidableEq, Repr

/-- The `*logrus.Entry` of a manager, taken to be a working logger: its `Info` and
`Infof` calls return, and are recorded in the trace with their formatted text. -/
structure Logger where
  id : Nat
deriving DecidableEq, Repr

/-- Modelled from the spec: the declaration of the struct `Config` is outside the
source file. These are the fields the file reads. -/
structure Config where
  Name : String
  Namespace : String
  PVProvisioner : String
  S3Context : S3Context
  KubeCli : KubeCli
deriving DecidableEq, Repr

/-- Modelled from the spec: the interface `backupstorage.Storage` is outside the source
file. These are the two methods the file calls, `Clone(from) error` and
`Delete() error`, acting on the world. -/
structure Storage (σ : Type) where
  Clone : String → σ → Option GoError × σ
  Delete : σ → Option GoError × σ

/-- A call that leaves the file. `P` is the type `api.PodSpec`. -/
inductive Event (P : Type) where
  | Info (text : String)
  | Infof (text : String)
  | NewPVStorage (name ns provisioner : String) (hasExist : Bool)
  | NewS3Storage (name ns : String) (hasExist : Bool)
  | Clone (src : String)
  | Delete
  | MakeBackupPodSpec (name : String)
  | PodSpecWithPV
  | PodSpecWithS3
  | PodSpecWithEmptyDir
  | CreateBackupReplicaSetAndService (name ns : String) (podSpec : P)
  | DeleteBackupReplicaSetAndService (name ns : String)
deriving DecidableEq, Repr

/-- The functions of `backupstorage` and `k8sutil` that the file calls, taken as
parameters: their code is outside the source file, their arguments and results are
those of the calls in it. The two constructors and the two workload calls receive
the client and act on the world; the pod spec factory and the three decorations do
not. -/
structure Deps (σ P : Type) where
  NewPVStorage : KubeCli → String → String → String → BackupPolicy → Bool → σ →
    (Option (Storage σ) × Option GoError) × σ
  NewS3Storage : S3Context → KubeCli → String → String → BackupPolicy → Bool → σ →
    (Option (Storage σ) × Option GoError) × σ
  MakeBackupPodSpec : String → Option BackupPolicy → Option P × Option GoError
  PodSpecWithPV : Option P → String → Option P
  PodSpecWithS3 : Option P → S3Context → Option P
  PodSpecWithEmptyDir : Option P → Option P
  CreateBackupReplicaSetAndService : KubeCli → String → String → P → σ → Option GoError × σ
  DeleteBackupReplicaSetAndService : KubeCli → String → String → σ → Option GoError × σ

/-- The struct `backupManager`. -/
structure backupManager (σ : Type) where
  logger : Logger
  clusterConfig : Config
  backupPolicy : Option BackupPolicy
  restorePolicy : Option RestorePolicy
  s : Option (Storage σ)

/-- The world outside the file together with the calls made so far, oldest first. -/
structure State (σ P : Type) where
  world : σ
  trace : List (Event P)

/-- How a function of the file ends: it returns, or a nil pointer is dereferenced. -/
inductive Outcome (α : Type) where
  | ret (a : α)
  | panicked
deriving DecidableEq, Repr

/-- Append one event to the trace. -/
def State.emit {σ P : Type} (st : State σ P) (e : Event P) : State σ P :=
  ⟨st.world, st.trace ++ [e]⟩

/-- Record the event of an outside call and move to the world it leaves. -/
def State.call {σ P : Type} (st : State σ P) (e : Event P) (w : σ) : State σ P :=
  ⟨w, st.trace ++ [e]⟩

/-- The function `(*backupManager).setupStorage`. -/
def setupStorage {σ P : Type} (d : Deps σ P) (bm : backupManager σ) (hasExist : Bool)
    (st : State σ P) : Outcome (Option (Storage σ) × Option GoError) × State σ P :=
  let c := bm.clusterConfig
  match bm.backupPolicy with
  | none => (.panicked, st)
  | some b =>
    match b.StorageType with
    | .PersistentVolume =>
      let r := d.NewPVStorage c.KubeCli c.Name c.Namespace c.PVProvisioner b hasExist st.world
      (.ret r.1, st.call (.NewPVStorage c.Name c.Namespace c.PVProvisioner hasExist) r.2)
    | .S3 =>
      let r := d.NewS3Storage c.S3Context c.KubeCli c.Name c.Namespace b hasExist st.world
      (.ret r.1, st.call (.NewS3Storage c.Name c.Namespace hasExist) r.2)
    | .Default => (.ret (none, none), st)
    | .Other _ => (.ret (none, none), st)

/-- The local `hasExist` of `newBackupManager`, as the two branches assign it. -/
def hasExist (c : Config) (r : Option RestorePolicy) (isNewCluster : Bool) : Bool :=
  if !isNewCluster then true
  else
    match r with
    | some rp => if rp.BackupClusterName = c.Name then true else false
    | none => false

/-- The function `newBackupManager`. -/
def newBackupManager {σ P : Type} (d : Deps σ P) (c : Config) (b : Option BackupPolicy)
    (r : Option RestorePolicy) (l : Logger) (isNewCluster : Bool) (st : State σ P) :
    Outcome (Option (backupManager σ) × Option GoError) × State σ P :=
  let bm : backupManager σ :=
    { clusterConfig := c, backupPolicy := b, restorePolicy := r, logger := l, s := none }
  match setupStorage d bm (hasExist c r isNewCluster) st with
  | (.panicked, st1) => (.panicked, st1)
  | (.ret (_, some err), st1) => (.ret (none, some err), st1)
  | (.ret (s, none), st1) => (.ret (some { bm with s := s }, none), st1)

/-- The last statements of `runSidecar`: dereference the pod spec and create the
replica set and the service. -/
def submitSidecar {σ P : Type} (d : Deps σ P) (bm : backupManager σ) (podSpec : Option P)
    (st : State σ P) : Outcome (Option GoError) × State σ P :=
  let c := bm.clusterConfig
  match podSpec with
  | none => (.panicked, st)
  | some ps =>
    let r := d.CreateBackupReplicaSetAndService c.KubeCli c.Name c.Namespace ps st.world
    let st1 := st.call (.CreateBackupReplicaSetAndService c.Name c.Namespace ps) r.2
    match r.1 with
    | some err => (.ret (some (Errorf "failed to create backup replica set and service: " err)), st1)
    | none => (.ret none, st1.emit (.Info "backup replica set and service created"))

/-- The function `(*backupManager).runSidecar`. -/
def runSidecar {σ P : Type} (d : Deps σ P) (bm : backupManager σ) (st : State σ P) :
    Outcome (Option GoError) × State σ P :=
  let c := bm.clusterConfig
  let st1 := st.emit (.MakeBackupPodSpec c.Name)
  match d.MakeBackupPodSpec c.Name bm.backupPolicy with
  | (_, some err) => (.ret (some err), st1)
  | (podSpec, none) =>
    match bm.backupPolicy with
    | none => (.panicked, st1)
    | some b =>
      match b.StorageType with
      | .PersistentVolume =>
        submitSidecar d bm (d.PodSpecWithPV podSpec c.Name) (st1.emit .PodSpecWithPV)
      | .S3 =>
        submitSidecar d bm (d.PodSpecWithS3 podSpec c.S3Context) (st1.emit .PodSpecWithS3)
      | .Default =>
        submitSidecar d bm (d.PodSpecWithEmptyDir podSpec) (st1.emit .PodSpecWithEmptyDir)
      | .Other _ => submitSidecar d bm podSpec st1

/-- The text `setup` logs when it drops the restore policy for want of a handle. -/
def storageEmptyText (src : String) : String :=
  "storage is empty, cannot restore from existing backup (" ++ src ++ ")"

/-- The text `setup` logs when it acts on the restore policy. -/
def restoringText (src : String) : String :=
  "restoring cluster from existing backup (" ++ src ++ ")"

/-- The function `(*backupManager).setup`. The manager is returned too, because
`setup` may assign `nil` to its `restorePolicy`. -/
def setup {σ P : Type} (d : Deps σ P) (bm : backupManager σ) (st : State σ P) :
    Outcome (Option GoError) × backupManager σ × State σ P :=
  let demote : backupManager σ × State σ P :=
    match bm.s, bm.restorePolicy with
    | none, some r =>
      ({ bm with restorePolicy := none },
        st.emit (.Infof (storageEmptyText r.BackupClusterName)))
    | _, _ => (bm, st)
  let bm1 := demote.1
  let st1 := demote.2
  match bm1.restorePolicy with
  | none =>
    let out := runSidecar d bm1 st1
    (out.1, bm1, out.2)
  | some r =>
    let st2 := st1.emit (.Infof (restoringText r.BackupClusterName))
    if bm1.clusterConfig.Name ≠ r.BackupClusterName then
      match bm1.s with
      | none => (.panicked, bm1, st2)
      | some s =>
        let cl := s.Clone r.BackupClusterName st2.world
        let st3 := st2.call (.Clone r.BackupClusterName) cl.2
        match cl.1 with
        | some err => (.ret (some err), bm1, st3)
        | none =>
          let out := runSidecar d bm1 st3
          (out.1, bm1, out.2)
    else
      let out := runSidecar d bm1 st2
      (out.1, bm1, out.2)

/-- The function `(*backupManager).cleanup`. -/
def cleanup {σ P : Type} (d : Deps σ P) (bm : backupManager σ) (st : State σ P) :
    Option GoError × State σ P :=
  let c := bm.clusterConfig
  let r := d.DeleteBackupReplicaSetAndService c.KubeCli c.Name c.Namespace st.world
  let st1 := st.call (.DeleteBackupReplicaSetAndService c.Name c.Namespace) r.2
  match r.1 with
  | some err => (some (Errorf "fail to delete backup ReplicaSet and Service: " err), st1)
  | none =>
    let st2 := st1.emit (.Infof "backup replica set and service deleted")
    match bm.s with
    | none => (none, st2)
    | some s =>
      let del := s.Delete st2.world
      let st3 := st2.call .Delete del.2
      match del.1 with
      | some err => (some (Errorf "fail to delete store: " err), st3)
      | none => (none, st3)

/-- The result of the call of `DeleteBackupReplicaSetAndService` with which
`cleanup` starts. -/
def workloadDeletion {σ P : Type} (d : Deps σ P) (bm : backupManager σ) (st : State σ P) :
    Option GoError × σ :=
  d.DeleteBackupReplicaSetAndService bm.clusterConfig.KubeCli bm.clusterConfig.Name
    bm.clusterConfig.Namespace st.world

/-- The message of `err` starts with `text`. -/
def StartsWith (text : String) (err : GoError) : Prop :=
  text.data <+: err.msg.data

/-- The text put before a failure of the workload deletion in `cleanup`. -/
def workloadText : String := "fail to delete backup ReplicaSet and Service: "

/-- The text put before a failure of the storage deletion in `cleanup`. -/
def storeText : String := "fail to delete store: "

/-- The result of the call of `backupstorage.NewPVStorage` that `setupStorage` makes for
the policy `b` and the flag `flag`. -/
def pvConstruction {σ P : Type} (d : Deps σ P) (c : Config) (b : BackupPolicy) (flag : Bool)
    (st : State σ P) : (Option (Storage σ) × Option GoError) × σ :=
  d.NewPVStorage c.KubeCli c.Name c.Namespace c.PVProvisioner b flag st.world

/-- The result of the call of `backupstorage.NewS3Storage` that `setupStorage` makes for
the policy `b` and the flag `flag`. -/
def s3Construction {σ P : Type} (d : Deps σ P) (c : Config) (b : BackupPolicy) (flag : Bool)
    (st : State σ P) : (Option (Storage σ) × Option GoError) × σ :=
  d.NewS3Storage c.S3Context c.KubeCli c.Name c.Namespace b flag st.world

/-- A constructor's result holds a handle exactly when it holds no error. -/
def HandleOrError {σ : Type} (r : Option (Storage σ) × Option GoError) : Prop :=
  r.1 ≠ none ↔ r.2 = none

/-- The text put before a failure of the submission in `runSidecar`. -/
def createText : String := "failed to create backup replica set and service: "

/-- The result of the call of `CreateBackupReplicaSetAndService` that `runSidecar` makes
with the pod spec `q`. -/
def workloadCreation {σ P : Type} (d : Deps σ P) (bm : backupManager σ) (q : P)
    (st : State σ P) : Option GoError × σ :=
  d.CreateBackupReplicaSetAndService bm.clusterConfig.KubeCli bm.clusterConfig.Name
    bm.clusterConfig.Namespace q st.world

/-- What a run of `runSidecar` looks like from outside when the base spec was built,
`ev` is the one decoration called and `decorated` the pointer it returned: the calls
are `MakeBackupPodSpec`, `ev`, and the submission of the spec `decorated` points to
(followed by a log line when it succeeded); the result is the submission's, wrapped
when it is an error. A nil `decorated` is dereferenced and nothing is submitted. -/
def SubmitsDecorated {σ P : Type} (d : Deps σ P) (bm : backupManager σ) (st : State σ P)
    (ev : Event P) (decorated : Option P) : Prop :=
  (∀ q, decorated = some q →
    (runSidecar d bm st).1 = .ret ((workloadCreation d bm q st).1.map (Errorf createText)) ∧
    (runSidecar d bm st).2.world = (workloadCreation d bm q st).2 ∧
    (runSidecar d bm st).2.trace = st.trace ++
      [.MakeBackupPodSpec bm.clusterConfig.Name, ev,
       .CreateBackupReplicaSetAndService bm.clusterConfig.Name bm.clusterConfig.Namespace q] ++
      (match (workloadCreation d bm q st).1 with
       | none => [.Info "backup replica set and service created"]
       | some _ => [])) ∧
  (decorated = none →
    runSidecar d bm st =
      (.panicked, ⟨st.world, st.trace ++ [.MakeBackupPodSpec bm.clusterConfig.Name, ev]⟩))

/-! ## A small concrete world, for the examples -/

/-- A concrete world: the clusters that have a backup replica set and service, the
clusters that have stored backups, and whether the API server answers. -/
structure FakeWorld where
  sidecars : List String
  stores : List String
  apiUp : Bool
deriving DecidableEq, Repr

/-- A storage handle of cluster `name` over `FakeWorld`: `Clone` needs the source's
backups to exist, `Delete` needs the API server. -/
def fakeStorage (name : String) : Storage FakeWorld where
  Clone := fun src w =>
    if src ∈ w.stores then (none, { w with stores := name :: w.stores })
    else (some ⟨"no backup of " ++ src⟩, w)
  Delete := fun w =>
    if w.apiUp then (none, { w with stores := w.stores.erase name })
    else (some ⟨"connection refused"⟩, w)

/-- Collaborators over `FakeWorld`; a pod spec is the list of its parts. Deleting the
replica set and service of a cluster that has none succeeds without the API
server. -/
def fakeDeps : Deps FakeWorld (List String) where
  NewPVStorage := fun _ name _ _ _ _ w =>
    if w.apiUp then ((some (fakeStorage name), none), w)
    else ((none, some ⟨"connection refused"⟩), w)
  NewS3Storage := fun _ _ name _ _ _ w =>
    if w.apiUp then ((some (fakeStorage name), none), w)
    else ((none, some ⟨"connection refused"⟩), w)
  MakeBackupPodSpec := fun name _ =>
    if name = "" then (none, some ⟨"empty cluster name"⟩) else (some [name], none)
  PodSpecWithPV := fun p name => p.map (fun ps => ps ++ ["pv:" ++ name])
  PodSpecWithS3 := fun p _ => p.map (fun ps => ps ++ ["s3"])
  PodSpecWithEmptyDir := fun p => p.map (fun ps => ps ++ ["emptydir"])
  CreateBackupReplicaSetAndService := fun _ name _ _ w =>
    if w.apiUp then (none, { w with sidecars := name :: w.sidecars })
    else (some ⟨"connection refused"⟩, w)
  DeleteBackupReplicaSetAndService := fun _ name _ w =>
    if name ∉ w.sidecars then (none, w)
    else if w.apiUp then (none, { w with sidecars := w.sidecars.filter (fun n => n ≠ name) })
    else (some ⟨"connection refused"⟩, w)

/-- The configuration of the cluster `target`. -/
def fakeConfig : Config :=
  { Name := "target", Namespace := "default", PVProvisioner := "kubernetes.io/gce-pd",
    S3Context := ⟨0⟩, KubeCli := ⟨0⟩ }

/-- A backup policy of the given storage type. -/
def fakePolicy (t : BackupStorageType) : BackupPolicy :=
  { StorageType := t, rest := "" }

/-- A manager of `target` with the given policy, restore source and handle. -/
def fakeManager (t : BackupStorageType) (src : Option String)
    (s : Option (Storage FakeWorld)) : backupManager FakeWorld :=
  { logger := ⟨0⟩, clusterConfig := fakeConfig, backupPolicy := some (fakePolicy t),
    restorePolicy := src.map RestorePolicy.mk, s := s }

/-- A state with a running `target` sidecar, backups of `source`, and the given
availability of the API server; nothing has been called yet. -/
def fakeState (apiUp : Bool) : State FakeWorld (List String) :=
  ⟨{ sidecars := ["target"], stores := ["source"], apiUp := apiUp }, []⟩

/-- A state in which `target` has no sidecar and nothing has been called yet. -/
def freshState : State FakeWorld (List String) :=
  ⟨{ sidecars := [], stores := [], apiUp := true }, []⟩

/-! ## Lemmas shared by the proofs -/

theorem Errorf_msg_data (text : String) (err : GoError) :
    (Errorf text err).msg.data = text.data ++ err.msg.data := by
  simp [Errorf, String.data_append]

theorem startsWith_Errorf (text : String) (err : GoError) : StartsWith text (Errorf text err) := by
  unfold StartsWith
  rw [Errorf_msg_data]
  exact List.prefix_append _ _

theorem not_store_of_workload (err : GoError) : ¬ StartsWith storeText (Errorf workloadText err) := by
  unfold StartsWith
  rw [Errorf_msg_data]
  have h1 : storeText.data = "fail to delete ".data ++ ('s' :: "tore: ".data) := by decide
  have h2 : workloadText.data =
      "fail to delete ".data ++ ('b' :: "ackup ReplicaSet and Service: ".data) := by decide
  rw [h1, h2, List.append_assoc, List.prefix_append_right_inj, List.cons_append,
    List.cons_prefix_cons]
  rintro ⟨h, -⟩
  exact absurd h (by decide)

theorem not_workload_of_store (err : GoError) : ¬ StartsWith workloadText (Errorf storeText err) := by
  unfold StartsWith
  rw [Errorf_msg_data]
  have h1 : storeText.data = "fail to delete ".data ++ ('s' :: "tore: ".data) := by decide
  have h2 : workloadText.data =
      "fail to delete ".data ++ ('b' :: "ackup ReplicaSet and Service: ".data) := by decide
  rw [h1, h2, List.append_assoc, List.prefix_append_right_inj, List.cons_append,
    List.cons_prefix_cons]
  rintro ⟨h, -⟩
  exact absurd h (by decide)

theorem Errorf_store_ne_workload (e1 e2 : GoError) :
    Errorf storeText e1 ≠ Errorf workloadText e2 := by
  intro h
  apply not_workload_of_store e1
  rw [h]
  exact startsWith_Errorf _ _

/-- When the workload deletion fails, `cleanup` returns at once. -/
theorem cleanup_of_workload_error {σ P : Type} (d : Deps σ P) (bm : backupManager σ)
    (st : State σ P) (e : GoError) (h : (workloadDeletion d bm st).1 = some e) :
    cleanup d bm st = (some (Errorf workloadText e),
      ⟨(workloadDeletion d bm st).2, st.trace ++
        [.DeleteBackupReplicaSetAndService bm.clusterConfig.Name bm.clusterConfig.Namespace]⟩) := by
  unfold workloadDeletion at h
  simp [cleanup, workloadDeletion, State.call, h, workloadText]

/-- When the workload deletion succeeds and there is no handle, `cleanup` is done. -/
theorem cleanup_of_no_storage {σ P : Type} (d : Deps σ P) (bm : backupManager σ)
    (st : State σ P) (h : (workloadDeletion d bm st).1 = none) (hs : bm.s = none) :
    cleanup d bm st = (none,
      ⟨(workloadDeletion d bm st).2, st.trace ++
        [.DeleteBackupReplicaSetAndService bm.clusterConfig.Name bm.clusterConfig.Namespace,
         .Infof "backup replica set and service deleted"]⟩) := by
  unfold workloadDeletion at h
  simp [cleanup, workloadDeletion, State.call, State.emit, h, hs]

/-- When the workload deletion succeeds and there is a handle, `cleanup` calls its
`Delete` and returns what it returns, wrapped when it is an error. -/
theorem cleanup_of_storage {σ P : Type} (d : Deps σ P) (bm : backupManager σ)
    (st : State σ P) (s : Storage σ) (h : (workloadDeletion d bm st).1 = none)
    (hs : bm.s = some s) :
    cleanup d bm st = (((s.Delete (workloadDeletion d bm st).2).1).map (Errorf storeText),
      ⟨(s.Delete (workloadDeletion d bm st).2).2, st.trace ++
        [.DeleteBackupReplicaSetAndService bm.clusterConfig.Name bm.clusterConfig.Namespace,
         .Infof "backup replica set and service deleted", .Delete]⟩) := by
  unfold workloadDeletion at h
  cases hd : (s.Delete (d.DeleteBackupReplicaSetAndService bm.clusterConfig.KubeCli
      bm.clusterConfig.Name bm.clusterConfig.Namespace st.world).2).1 <;>
    simp [cleanup, workloadDeletion, State.call, State.emit, h, hs, hd, storeText]

/-! ## `cleanup` -/

/-- C1, as the code has it: with a non-nil storage handle, `cleanup` calls the handle's
`Delete` when the deletion of the backup replica set and service succeeded, and then
it is the last call; when that deletion returns an error, `cleanup` returns the
wrapped error at once and the only call made is the workload deletion. -/
theorem cleanup_Delete_after_workload_deleted {σ P : Type} (d : Deps σ P)
    (bm : backupManager σ) (st : State σ P) (s : Storage σ) (hs : bm.s = some s) :
    ((workloadDeletion d bm st).1 = none →
      (cleanup d bm st).2.trace = st.trace ++
        [.DeleteBackupReplicaSetAndService bm.clusterConfig.Name bm.clusterConfig.Namespace,
         .Infof "backup replica set and service deleted", .Delete] ∧
      (cleanup d bm st).2.world = (s.Delete (workloadDeletion d bm st).2).2) ∧
    (∀ e, (workloadDeletion d bm st).1 = some e →
      (cleanup d bm st).1 = some (Errorf workloadText e) ∧
      (cleanup d bm st).2.trace = st.trace ++
        [.DeleteBackupReplicaSetAndService bm.clusterConfig.Name bm.clusterConfig.Namespace] ∧
      (cleanup d bm st).2.world = (workloadDeletion d bm st).2) := by
  refine ⟨fun h => ?_, fun e h => ?_⟩
  · rw [cleanup_of_storage d bm st s h hs]
    exact ⟨rfl, rfl⟩
  · rw [cleanup_of_workload_error d bm st e h]
    exact ⟨rfl, rfl, rfl⟩

/-- C1 at a manager of `target` with a handle, first with the API server up (the
workload deletion succeeds, `Delete` is called), then with it down. -/
theorem cleanup_Delete_after_workload_deleted_witness :
    (cleanup fakeDeps (fakeManager .PersistentVolume none (some (fakeStorage "target")))
        (fakeState true)).2.trace =
      [.DeleteBackupReplicaSetAndService "target" "default",
       .Infof "backup replica set and service deleted", .Delete] ∧
    (cleanup fakeDeps (fakeManager .PersistentVolume none (some (fakeStorage "target")))
        (fakeState false)).1 =
      some ⟨"fail to delete backup ReplicaSet and Service: connection refused"⟩ :=
  ⟨((cleanup_Delete_after_workload_deleted fakeDeps
      (fakeManager .PersistentVolume none (some (fakeStorage "target"))) (fakeState true)
      (fakeStorage "target") rfl).1 (by decide)).1,
   ((cleanup_Delete_after_workload_deleted fakeDeps
      (fakeManager .PersistentVolume none (some (fakeStorage "target"))) (fakeState false)
      (fakeStorage "target") rfl).2 ⟨"connection refused"⟩ (by decide)).1⟩

/-- C1 as stated fails: the manager has a storage handle, the deletion of the backup
replica set and service returns an error, and `cleanup` ends without calling the
handle's `Delete`: the workload deletion is the only call it made. -/
theorem cleanup_skips_Delete_counterexample :
    (fakeManager .PersistentVolume none (some (fakeStorage "target"))).s.isSome = true ∧
    (workloadDeletion fakeDeps
      (fakeManager .PersistentVolume none (some (fakeStorage "target")))
      (fakeState false)).1 = some ⟨"connection refused"⟩ ∧
    (cleanup fakeDeps (fakeManager .PersistentVolume none (some (fakeStorage "target")))
      (fakeState false)).2.trace = [.DeleteBackupReplicaSetAndService "target" "default"] ∧
    Event.Delete ∉ (cleanup fakeDeps
      (fakeManager .PersistentVolume none (some (fakeStorage "target")))
      (fakeState false)).2.trace := by
  decide

/-- C7: `cleanup` returns no error only if the workload deletion succeeded and the
handle is nil or its `Delete` succeeded; a failed workload deletion is returned behind
`workloadText`, a failed storage deletion behind `storeText`, and a message that
starts with one of the two texts does not start with the other. -/
theorem cleanup_error_identifies_step {σ P : Type} (d : Deps σ P) (bm : backupManager σ)
    (st : State σ P) :
    ((cleanup d bm st).1 = none →
      (workloadDeletion d bm st).1 = none ∧
      (bm.s = none ∨ ∃ s, bm.s = some s ∧ (s.Delete (workloadDeletion d bm st).2).1 = none)) ∧
    (∀ e, (workloadDeletion d bm st).1 = some e →
      (cleanup d bm st).1 = some (Errorf workloadText e)) ∧
    (∀ s e, (workloadDeletion d bm st).1 = none → bm.s = some s →
      (s.Delete (workloadDeletion d bm st).2).1 = some e →
      (cleanup d bm st).1 = some (Errorf storeText e)) ∧
    (∀ e, StartsWith workloadText (Errorf workloadText e) ∧
      ¬ StartsWith storeText (Errorf workloadText e)) ∧
    (∀ e, StartsWith storeText (Errorf storeText e) ∧
      ¬ StartsWith workloadText (Errorf storeText e)) := by
  refine ⟨fun h => ?_, fun e h => ?_, fun s e h hs hd => ?_, fun e => ?_, fun e => ?_⟩
  · cases hw : (workloadDeletion d bm st).1 with
    | some e => rw [cleanup_of_workload_error d bm st e hw] at h; simp at h
    | none =>
      refine ⟨rfl, ?_⟩
      cases hs : bm.s with
      | none => exact Or.inl rfl
      | some s =>
        rw [cleanup_of_storage d bm st s hw hs] at h
        exact Or.inr ⟨s, rfl, by simpa using h⟩
  · rw [cleanup_of_workload_error d bm st e h]
  · rw [cleanup_of_storage d bm st s h hs, hd]
    rfl
  · exact ⟨startsWith_Errorf _ _, not_store_of_workload e⟩
  · exact ⟨startsWith_Errorf _ _, not_workload_of_store e⟩

/-- C10: let `absent` say of a world that the cluster has no backup workload, and let
the client answer success when asked to delete an absent workload. Then `cleanup`
never returns the workload-deletion error on a world where the workload is absent:
not when `setup` never ran, and not in a second `cleanup` that finds the workload
gone. And when a successful deletion leaves the workload absent and the handle's
`Delete` does not bring it back, a first `cleanup` whose workload deletion went
through leaves the workload absent, so the second does not return that error. -/
theorem cleanup_idempotent {σ P : Type} (d : Deps σ P) (bm : backupManager σ)
    (absent : σ → Prop)
    (hclient : ∀ st : State σ P, absent st.world → (workloadDeletion d bm st).1 = none) :
    (∀ st : State σ P, absent st.world →
      ∀ e, (cleanup d bm st).1 ≠ some (Errorf workloadText e)) ∧
    (∀ st : State σ P, absent (cleanup d bm st).2.world →
      ∀ e, (cleanup d bm (cleanup d bm st).2).1 ≠ some (Errorf workloadText e)) ∧
    ((∀ st : State σ P, (workloadDeletion d bm st).1 = none →
        absent (workloadDeletion d bm st).2) →
      (∀ s, bm.s = some s → ∀ w, absent w → absent (s.Delete w).2) →
      ∀ st : State σ P, (workloadDeletion d bm st).1 = none →
        absent (cleanup d bm st).2.world ∧
        ∀ e, (cleanup d bm (cleanup d bm st).2).1 ≠ some (Errorf workloadText e)) := by
  have key : ∀ st : State σ P, (workloadDeletion d bm st).1 = none →
      ∀ e, (cleanup d bm st).1 ≠ some (Errorf workloadText e) := by
    intro st hw e h
    cases hs : bm.s with
    | none =>
      rw [cleanup_of_no_storage d bm st hw hs] at h
      simp at h
    | some s =>
      rw [cleanup_of_storage d bm st s hw hs] at h
      cases hd : (s.Delete (workloadDeletion d bm st).2).1 with
      | none => simp [hd] at h
      | some e1 =>
        simp only [hd, Option.map_some', Option.some.injEq] at h
        exact Errorf_store_ne_workload e1 e h
  refine ⟨fun st ha => key st (hclient st ha), fun st ha => key _ (hclient _ ha),
    fun hdeleted hstore st hw => ?_⟩
  have habs : absent (cleanup d bm st).2.world := by
    cases hs : bm.s with
    | none =>
      rw [cleanup_of_no_storage d bm st hw hs]
      exact hdeleted st hw
    | some s =>
      rw [cleanup_of_storage d bm st s hw hs]
      exact hstore s hs _ (hdeleted st hw)
  exact ⟨habs, key _ (hclient _ habs)⟩

/-- C10 at the concrete client, whose deletion of an absent workload succeeds:
`cleanup` of a cluster that was never set up, and a second `cleanup` after a first,
do not return the workload-deletion error. -/
theorem cleanup_idempotent_witness :
    (cleanup fakeDeps (fakeManager .PersistentVolume none (some (fakeStorage "target")))
        freshState).1 ≠ some (Errorf workloadText ⟨"not found"⟩) ∧
    (cleanup fakeDeps (fakeManager .PersistentVolume none (some (fakeStorage "target")))
        (cleanup fakeDeps (fakeManager .PersistentVolume none (some (fakeStorage "target")))
          (fakeState true)).2).1 ≠ some (Errorf workloadText ⟨"not found"⟩) :=
  have h := cleanup_idempotent (P := List String) fakeDeps
    (fakeManager .PersistentVolume none (some (fakeStorage "target")))
    (fun w => "target" ∉ w.sidecars)
    (fun st ha => by
      simp only [workloadDeletion, fakeDeps, fakeManager, fakeConfig]
      rw [if_pos ha])
  ⟨h.1 freshState (by decide) _, h.2.1 (fakeState true) (by decide) _⟩

/-- C7 at a manager of `target` with a handle and the API server down: the error
`cleanup` returns is the client's, behind the workload text. -/
theorem cleanup_error_identifies_step_witness :
    (cleanup fakeDeps (fakeManager .PersistentVolume none (some (fakeStorage "target")))
      (fakeState false)).1 = some (Errorf workloadText ⟨"connection refused"⟩) :=
  (cleanup_error_identifies_step fakeDeps
    (fakeManager .PersistentVolume none (some (fakeStorage "target")))
    (fakeState false)).2.1 ⟨"connection refused"⟩ (by decide)

/-! ## `runSidecar` and `setup` -/

/-- The calls of `submitSidecar`: none of them is a `Clone`. -/
theorem submitSidecar_trace {σ P : Type} (d : Deps σ P) (bm : backupManager σ)
    (podSpec : Option P) (st : State σ P) :
    ∃ rest, (submitSidecar d bm podSpec st).2.trace = st.trace ++ rest ∧
      ∀ src, Event.Clone src ∉ rest := by
  cases podSpec with
  | none => exact ⟨[], by simp [submitSidecar], by simp⟩
  | some ps =>
    cases hc : (d.CreateBackupReplicaSetAndService bm.clusterConfig.KubeCli
        bm.clusterConfig.Name bm.clusterConfig.Namespace ps st.world).1 with
    | some e =>
      exact ⟨[.CreateBackupReplicaSetAndService bm.clusterConfig.Name
        bm.clusterConfig.Namespace ps], by simp [submitSidecar, State.call, hc], by simp⟩
    | none =>
      exact ⟨[.CreateBackupReplicaSetAndService bm.clusterConfig.Name
        bm.clusterConfig.Namespace ps, .Info "backup replica set and service created"],
        by simp [submitSidecar, State.call, State.emit, hc], by simp⟩

/-- The calls of `runSidecar` start with `MakeBackupPodSpec`, and none is a `Clone`. -/
theorem runSidecar_trace {σ P : Type} (d : Deps σ P) (bm : backupManager σ)
    (st : State σ P) :
    ∃ rest, (runSidecar d bm st).2.trace =
        st.trace ++ Event.MakeBackupPodSpec bm.clusterConfig.Name :: rest ∧
      ∀ src, Event.Clone src ∉ rest := by
  rcases hm : d.MakeBackupPodSpec bm.clusterConfig.Name bm.backupPolicy with ⟨p, _ | e⟩
  · cases hb : bm.backupPolicy with
    | none =>
      rw [hb] at hm
      exact ⟨[], by simp [runSidecar, hm, hb, State.emit], by simp⟩
    | some b =>
      rw [hb] at hm
      cases ht : b.StorageType with
      | PersistentVolume =>
        obtain ⟨rest, h1, h2⟩ := submitSidecar_trace d bm
          (d.PodSpecWithPV p bm.clusterConfig.Name)
          ((st.emit (.MakeBackupPodSpec bm.clusterConfig.Name)).emit .PodSpecWithPV)
        simp [State.emit] at h1
        exact ⟨.PodSpecWithPV :: rest, by simp [runSidecar, hm, hb, ht, h1, State.emit],
          by simpa using h2⟩
      | S3 =>
        obtain ⟨rest, h1, h2⟩ := submitSidecar_trace d bm
          (d.PodSpecWithS3 p bm.clusterConfig.S3Context)
          ((st.emit (.MakeBackupPodSpec bm.clusterConfig.Name)).emit .PodSpecWithS3)
        simp [State.emit] at h1
        exact ⟨.PodSpecWithS3 :: rest, by simp [runSidecar, hm, hb, ht, h1, State.emit],
          by simpa using h2⟩
      | Default =>
        obtain ⟨rest, h1, h2⟩ := submitSidecar_trace d bm (d.PodSpecWithEmptyDir p)
          ((st.emit (.MakeBackupPodSpec bm.clusterConfig.Name)).emit .PodSpecWithEmptyDir)
        simp [State.emit] at h1
        exact ⟨.PodSpecWithEmptyDir :: rest,
          by simp [runSidecar, hm, hb, ht, h1, State.emit], by simpa using h2⟩
      | Other v =>
        obtain ⟨rest, h1, h2⟩ := submitSidecar_trace d bm p
          (st.emit (.MakeBackupPodSpec bm.clusterConfig.Name))
        simp [State.emit] at h1
        exact ⟨rest, by simp [runSidecar, hm, hb, ht, h1, State.emit], h2⟩
  · exact ⟨[], by simp [runSidecar, hm, State.emit], by simp⟩

/-- With a restore policy naming another cluster and a handle, `setup` logs, calls
`Clone`, and goes on to `runSidecar` only when `Clone` returned no error. -/
theorem setup_of_clone {σ P : Type} (d : Deps σ P) (bm : backupManager σ) (st : State σ P)
    (r : RestorePolicy) (s : Storage σ) (hr : bm.restorePolicy = some r) (hs : bm.s = some s)
    (hne : bm.clusterConfig.Name ≠ r.BackupClusterName) :
    setup d bm st =
      match (s.Clone r.BackupClusterName st.world).1 with
      | some err => (.ret (some err), bm, ⟨(s.Clone r.BackupClusterName st.world).2,
          st.trace ++ [.Infof (restoringText r.BackupClusterName), .Clone r.BackupClusterName]⟩)
      | none =>
        ((runSidecar d bm ⟨(s.Clone r.BackupClusterName st.world).2, st.trace ++
            [.Infof (restoringText r.BackupClusterName), .Clone r.BackupClusterName]⟩).1, bm,
         (runSidecar d bm ⟨(s.Clone r.BackupClusterName st.world).2, st.trace ++
            [.Infof (restoringText r.BackupClusterName), .Clone r.BackupClusterName]⟩).2) := by
  cases hc : (s.Clone r.BackupClusterName st.world).1 <;>
    simp [setup, hr, hs, hne, hc, State.emit, State.call]

/-- With a restore policy naming the cluster itself and a handle, `setup` logs and goes
on to `runSidecar`. -/
theorem setup_of_self {σ P : Type} (d : Deps σ P) (bm : backupManager σ) (st : State σ P)
    (r : RestorePolicy) (s : Storage σ) (hr : bm.restorePolicy = some r) (hs : bm.s = some s)
    (heq : r.BackupClusterName = bm.clusterConfig.Name) :
    setup d bm st =
      ((runSidecar d bm (st.emit (.Infof (restoringText r.BackupClusterName)))).1, bm,
       (runSidecar d bm (st.emit (.Infof (restoringText r.BackupClusterName)))).2) := by
  simp [setup, hr, hs, heq, State.emit]

/-- With a restore policy and no handle, `setup` logs, drops the policy and goes on to
`runSidecar`. -/
theorem setup_of_no_storage {σ P : Type} (d : Deps σ P) (bm : backupManager σ)
    (st : State σ P) (r : RestorePolicy) (hr : bm.restorePolicy = some r) (hs : bm.s = none) :
    setup d bm st =
      ((runSidecar d { bm with restorePolicy := none }
          (st.emit (.Infof (storageEmptyText r.BackupClusterName)))).1,
       { bm with restorePolicy := none },
       (runSidecar d { bm with restorePolicy := none }
          (st.emit (.Infof (storageEmptyText r.BackupClusterName)))).2) := by
  simp [setup, hr, hs]

/-- C3: with a restore policy that names another cluster and a non-nil handle, the
calls of `setup` start with the log line and `Clone` of the source name, and every
call of the sidecar step comes after them. If `Clone` returns an error, `setup`
returns that error and makes no further call: no pod spec is built, nothing is
submitted. If `Clone` returns no error, `setup` is `runSidecar` run from the world
`Clone` left. -/
theorem setup_clone_before_sidecar {σ P : Type} (d : Deps σ P) (bm : backupManager σ)
    (st : State σ P) (r : RestorePolicy) (s : Storage σ) (hr : bm.restorePolicy = some r)
    (hs : bm.s = some s) (hne : bm.clusterConfig.Name ≠ r.BackupClusterName) :
    (∃ rest, (setup d bm st).2.2.trace = st.trace ++
        [.Infof (restoringText r.BackupClusterName), .Clone r.BackupClusterName] ++ rest ∧
      ((s.Clone r.BackupClusterName st.world).1 ≠ none → rest = [])) ∧
    (∀ e, (s.Clone r.BackupClusterName st.world).1 = some e →
      (setup d bm st).1 = .ret (some e) ∧
      (setup d bm st).2.2.world = (s.Clone r.BackupClusterName st.world).2) ∧
    ((s.Clone r.BackupClusterName st.world).1 = none →
      setup d bm st =
        ((runSidecar d bm ⟨(s.Clone r.BackupClusterName st.world).2, st.trace ++
            [.Infof (restoringText r.BackupClusterName), .Clone r.BackupClusterName]⟩).1, bm,
         (runSidecar d bm ⟨(s.Clone r.BackupClusterName st.world).2, st.trace ++
            [.Infof (restoringText r.BackupClusterName), .Clone r.BackupClusterName]⟩).2)) := by
  have h := setup_of_clone d bm st r s hr hs hne
  cases hc : (s.Clone r.BackupClusterName st.world).1 with
  | some e =>
    rw [hc] at h
    simp only at h
    rw [h]
    exact ⟨⟨[], by simp, fun _ => rfl⟩, fun e1 he => by simp_all, fun hn => by simp at hn⟩
  | none =>
    rw [hc] at h
    simp only at h
    obtain ⟨rest, h1, -⟩ := runSidecar_trace d bm
      ⟨(s.Clone r.BackupClusterName st.world).2, st.trace ++
        [.Infof (restoringText r.BackupClusterName), .Clone r.BackupClusterName]⟩
    refine ⟨⟨.MakeBackupPodSpec bm.clusterConfig.Name :: rest, ?_, fun hn => absurd rfl hn⟩,
      fun e he => by simp at he, fun _ => h⟩
    rw [h]
    simpa using h1

/-- C3 at a manager of `target` restoring from `missing`, of which no backup exists:
`Clone` fails, `setup` returns its error, and the log line and `Clone` are the only
calls. -/
theorem setup_clone_before_sidecar_witness :
    (setup fakeDeps (fakeManager .PersistentVolume (some "missing")
        (some (fakeStorage "target"))) (fakeState true)).1 =
      .ret (some ⟨"no backup of missing"⟩) ∧
    (setup fakeDeps (fakeManager .PersistentVolume (some "missing")
        (some (fakeStorage "target"))) (fakeState true)).2.2.world =
      ((fakeStorage "target").Clone "missing" (fakeState true).world).2 :=
  (setup_clone_before_sidecar fakeDeps
    (fakeManager .PersistentVolume (some "missing") (some (fakeStorage "target")))
    (fakeState true) ⟨"missing"⟩ (fakeStorage "target") rfl rfl (by decide)).2.1
    ⟨"no backup of missing"⟩ (by decide)

/-- C4: when the restore policy names the cluster itself, no call of `setup` is a
`Clone`, whatever the policy, the handle and the collaborators are. -/
theorem setup_self_restore_never_clones {σ P : Type} (d : Deps σ P) (bm : backupManager σ)
    (st : State σ P) (r : RestorePolicy) (hr : bm.restorePolicy = some r)
    (heq : r.BackupClusterName = bm.clusterConfig.Name) :
    ∃ rest, (setup d bm st).2.2.trace = st.trace ++ rest ∧ ∀ src, Event.Clone src ∉ rest := by
  cases hs : bm.s with
  | none =>
    rw [setup_of_no_storage d bm st r hr hs]
    obtain ⟨rest, h1, h2⟩ := runSidecar_trace d { bm with restorePolicy := none }
      (st.emit (.Infof (storageEmptyText r.BackupClusterName)))
    refine ⟨.Infof (storageEmptyText r.BackupClusterName) ::
      .MakeBackupPodSpec bm.clusterConfig.Name :: rest, ?_, ?_⟩
    · simpa [State.emit] using h1
    · simpa using h2
  | some s =>
    rw [setup_of_self d bm st r s hr hs heq]
    obtain ⟨rest, h1, h2⟩ := runSidecar_trace d bm
      (st.emit (.Infof (restoringText r.BackupClusterName)))
    refine ⟨.Infof (restoringText r.BackupClusterName) ::
      .MakeBackupPodSpec bm.clusterConfig.Name :: rest, ?_, ?_⟩
    · simpa [State.emit] using h1
    · simpa using h2

/-- C4 at a manager of `target` that restores from `target` and has a handle. -/
theorem setup_self_restore_never_clones_witness :
    ∃ rest, (setup fakeDeps (fakeManager .S3 (some "target") (some (fakeStorage "target")))
        (fakeState true)).2.2.trace = (fakeState true).trace ++ rest ∧
      ∀ src, Event.Clone src ∉ rest :=
  setup_self_restore_never_clones fakeDeps
    (fakeManager .S3 (some "target") (some (fakeStorage "target"))) (fakeState true)
    ⟨"target"⟩ rfl rfl

/-- C5: with a restore policy and a nil handle, `setup` logs that the storage is
empty, sets the restore policy to nil and is then `runSidecar` of the manager so
changed: its result is the sidecar step's result (no error of its own, no
dereference of the nil handle), the sidecar step is reached, and no call is a
`Clone`. -/
theorem setup_demotes_restore_without_storage {σ P : Type} (d : Deps σ P)
    (bm : backupManager σ) (st : State σ P) (r : RestorePolicy)
    (hr : bm.restorePolicy = some r) (hs : bm.s = none) :
    (setup d bm st).1 = (runSidecar d { bm with restorePolicy := none }
      (st.emit (.Infof (storageEmptyText r.BackupClusterName)))).1 ∧
    (setup d bm st).2.1 = { bm with restorePolicy := none } ∧
    (setup d bm st).2.2 = (runSidecar d { bm with restorePolicy := none }
      (st.emit (.Infof (storageEmptyText r.BackupClusterName)))).2 ∧
    ∃ rest, (setup d bm st).2.2.trace = st.trace ++
        [.Infof (storageEmptyText r.BackupClusterName),
         .MakeBackupPodSpec bm.clusterConfig.Name] ++ rest ∧
      ∀ src, Event.Clone src ∉ rest := by
  rw [setup_of_no_storage d bm st r hr hs]
  refine ⟨rfl, rfl, rfl, ?_⟩
  obtain ⟨rest, h1, h2⟩ := runSidecar_trace d { bm with restorePolicy := none }
    (st.emit (.Infof (storageEmptyText r.BackupClusterName)))
  exact ⟨rest, by simpa [State.emit] using h1, h2⟩

/-- C5 at a manager of `target` without storage that is told to restore from
`source`: `setup` returns no error. -/
theorem setup_demotes_restore_without_storage_witness :
    (setup fakeDeps (fakeManager .Default (some "source") none) (fakeState true)).1 =
      .ret none :=
  (setup_demotes_restore_without_storage fakeDeps (fakeManager .Default (some "source") none)
    (fakeState true) ⟨"source"⟩ rfl rfl).1.trans (by decide)

/-- The calls and result of `submitSidecar` on a non-nil pod spec. -/
theorem submitSidecar_some {σ P : Type} (d : Deps σ P) (bm : backupManager σ) (q : P)
    (st : State σ P) :
    submitSidecar d bm (some q) st =
      (.ret ((workloadCreation d bm q st).1.map (Errorf createText)),
       ⟨(workloadCreation d bm q st).2, st.trace ++
          [.CreateBackupReplicaSetAndService bm.clusterConfig.Name
            bm.clusterConfig.Namespace q] ++
          (match (workloadCreation d bm q st).1 with
           | none => [.Info "backup replica set and service created"]
           | some _ => [])⟩) := by
  cases hc : (workloadCreation d bm q st).1 <;>
    · unfold workloadCreation at hc
      simp [submitSidecar, workloadCreation, hc, State.call, State.emit, createText]

/-- The shape `SubmitsDecorated` describes is the shape of `submitSidecar` run after
the base spec was built and the decoration `ev` was called. -/
theorem submitsDecorated_of_eq {σ P : Type} (d : Deps σ P) (bm : backupManager σ)
    (st : State σ P) (ev : Event P) (decorated : Option P)
    (h : runSidecar d bm st = submitSidecar d bm decorated
      ⟨st.world, st.trace ++ [.MakeBackupPodSpec bm.clusterConfig.Name, ev]⟩) :
    SubmitsDecorated d bm st ev decorated := by
  refine ⟨fun q hq => ?_, fun hn => ?_⟩
  · subst hq
    rw [h, submitSidecar_some]
    simp [workloadCreation]
  · subst hn
    rw [h]
    rfl

/-- C8: with a backup policy of one of the three storage types, `runSidecar` builds the
base spec and, when that fails, returns the factory's error having called nothing
else; otherwise it calls exactly one decoration on the base spec, `PodSpecWithPV`
for persistent-volume, `PodSpecWithS3` for S3, `PodSpecWithEmptyDir` for the default
type, and the spec it submits is the one that decoration returned. -/
theorem runSidecar_one_decoration {σ P : Type} (d : Deps σ P) (bm : backupManager σ)
    (st : State σ P) (b : BackupPolicy) (hb : bm.backupPolicy = some b) :
    (∀ p e, d.MakeBackupPodSpec bm.clusterConfig.Name (some b) = (p, some e) →
      runSidecar d bm st =
        (.ret (some e), ⟨st.world, st.trace ++ [.MakeBackupPodSpec bm.clusterConfig.Name]⟩)) ∧
    (∀ p, d.MakeBackupPodSpec bm.clusterConfig.Name (some b) = (p, none) →
      (b.StorageType = .PersistentVolume →
        SubmitsDecorated d bm st .PodSpecWithPV (d.PodSpecWithPV p bm.clusterConfig.Name)) ∧
      (b.StorageType = .S3 →
        SubmitsDecorated d bm st .PodSpecWithS3
          (d.PodSpecWithS3 p bm.clusterConfig.S3Context)) ∧
      (b.StorageType = .Default →
        SubmitsDecorated d bm st .PodSpecWithEmptyDir (d.PodSpecWithEmptyDir p))) := by
  refine ⟨fun p e hm => ?_, fun p hm => ⟨fun ht => ?_, fun ht => ?_, fun ht => ?_⟩⟩
  · simp [runSidecar, hb, hm, State.emit]
  all_goals
    apply submitsDecorated_of_eq
    simp [runSidecar, hb, hm, ht, State.emit]

/-- C8 at a manager of `target` with an S3 policy: the one spec submitted is the base
spec with the S3 part added. -/
theorem runSidecar_one_decoration_witness :
    SubmitsDecorated fakeDeps (fakeManager .S3 none (some (fakeStorage "target")))
      (fakeState true) .PodSpecWithS3 (some ["target", "s3"]) :=
  ((runSidecar_one_decoration fakeDeps (fakeManager .S3 none (some (fakeStorage "target")))
    (fakeState true) (fakePolicy .S3) rfl).2 (some ["target"]) (by decide)).2.1 rfl

/-! ## `setupStorage` and `newBackupManager` -/

/-- For a persistent-volume policy `setupStorage` is the call of `NewPVStorage`. -/
theorem setupStorage_of_PV {σ P : Type} (d : Deps σ P) (bm : backupManager σ) (flag : Bool)
    (st : State σ P) (b : BackupPolicy) (hb : bm.backupPolicy = some b)
    (ht : b.StorageType = .PersistentVolume) :
    setupStorage d bm flag st = (.ret (pvConstruction d bm.clusterConfig b flag st).1,
      ⟨(pvConstruction d bm.clusterConfig b flag st).2, st.trace ++
        [.NewPVStorage bm.clusterConfig.Name bm.clusterConfig.Namespace
          bm.clusterConfig.PVProvisioner flag]⟩) := by
  simp [setupStorage, hb, ht, pvConstruction, State.call]

/-- For an S3 policy `setupStorage` is the call of `NewS3Storage`. -/
theorem setupStorage_of_S3 {σ P : Type} (d : Deps σ P) (bm : backupManager σ) (flag : Bool)
    (st : State σ P) (b : BackupPolicy) (hb : bm.backupPolicy = some b)
    (ht : b.StorageType = .S3) :
    setupStorage d bm flag st = (.ret (s3Construction d bm.clusterConfig b flag st).1,
      ⟨(s3Construction d bm.clusterConfig b flag st).2, st.trace ++
        [.NewS3Storage bm.clusterConfig.Name bm.clusterConfig.Namespace flag]⟩) := by
  simp [setupStorage, hb, ht, s3Construction, State.call]

/-- For a policy of the default type `setupStorage` returns nil and nil and calls
nothing. -/
theorem setupStorage_of_Default {σ P : Type} (d : Deps σ P) (bm : backupManager σ)
    (flag : Bool) (st : State σ P) (b : BackupPolicy) (hb : bm.backupPolicy = some b)
    (ht : b.StorageType = .Default) :
    setupStorage d bm flag st = (.ret (none, none), st) := by
  simp [setupStorage, hb, ht]

/-- C2, as the code has it: for a policy of one of the three storage types,
`setupStorage` returns nil and nil for the default type, calling nothing, and, for
persistent-volume and S3, the very pair its constructor returned, whatever that pair
is. So, when the constructor that is called returns a handle exactly when it returns
no error, the handle is non-nil iff the type is persistent-volume or S3 and the
constructor returned no error, and handle and error are both nil iff the type is the
default type. -/
theorem setupStorage_handle_iff {σ P : Type} (d : Deps σ P) (bm : backupManager σ)
    (flag : Bool) (st : State σ P) (b : BackupPolicy) (hb : bm.backupPolicy = some b)
    (henum : b.StorageType = .PersistentVolume ∨ b.StorageType = .S3 ∨
      b.StorageType = .Default) :
    (b.StorageType = .Default → setupStorage d bm flag st = (.ret (none, none), st)) ∧
    (b.StorageType = .PersistentVolume →
      setupStorage d bm flag st = (.ret (pvConstruction d bm.clusterConfig b flag st).1,
        ⟨(pvConstruction d bm.clusterConfig b flag st).2, st.trace ++
          [.NewPVStorage bm.clusterConfig.Name bm.clusterConfig.Namespace
            bm.clusterConfig.PVProvisioner flag]⟩)) ∧
    (b.StorageType = .S3 →
      setupStorage d bm flag st = (.ret (s3Construction d bm.clusterConfig b flag st).1,
        ⟨(s3Construction d bm.clusterConfig b flag st).2, st.trace ++
          [.NewS3Storage bm.clusterConfig.Name bm.clusterConfig.Namespace flag]⟩)) ∧
    ((b.StorageType = .PersistentVolume →
        HandleOrError (pvConstruction d bm.clusterConfig b flag st).1) →
      (b.StorageType = .S3 → HandleOrError (s3Construction d bm.clusterConfig b flag st).1) →
      ∃ s err, (setupStorage d bm flag st).1 = .ret (s, err) ∧
        (s ≠ none ↔
          (b.StorageType = .PersistentVolume ∨ b.StorageType = .S3) ∧ err = none) ∧
        (s = none ∧ err = none ↔ b.StorageType = .Default)) := by
  refine ⟨setupStorage_of_Default d bm flag st b hb, setupStorage_of_PV d bm flag st b hb,
    setupStorage_of_S3 d bm flag st b hb, fun hpv hs3 => ?_⟩
  rcases henum with ht | ht | ht
  · have hc := hpv ht
    unfold HandleOrError at hc
    refine ⟨(pvConstruction d bm.clusterConfig b flag st).1.1,
      (pvConstruction d bm.clusterConfig b flag st).1.2, ?_, ?_, ?_⟩
    · rw [setupStorage_of_PV d bm flag st b hb ht]
    · rw [hc]; simp [ht]
    · simp only [ht]
      constructor
      · rintro ⟨h1, h2⟩
        exact absurd h1 (hc.mpr h2)
      · intro h; simp at h
  · have hc := hs3 ht
    unfold HandleOrError at hc
    refine ⟨(s3Construction d bm.clusterConfig b flag st).1.1,
      (s3Construction d bm.clusterConfig b flag st).1.2, ?_, ?_, ?_⟩
    · rw [setupStorage_of_S3 d bm flag st b hb ht]
    · rw [hc]; simp [ht]
    · simp only [ht]
      constructor
      · rintro ⟨h1, h2⟩
        exact absurd h1 (hc.mpr h2)
      · intro h; simp at h
  · refine ⟨none, none, ?_, ?_, ?_⟩
    · rw [setupStorage_of_Default d bm flag st b hb ht]
    · simp [ht]
    · simp [ht]

/-- C2 at a manager of `target` with a persistent-volume policy: with the API server
down the constructor fails and `setupStorage` returns its pair, a nil handle and the
error, having made that one call. -/
theorem setupStorage_handle_iff_witness :
    setupStorage fakeDeps (fakeManager .PersistentVolume none none) false (fakeState false) =
      (.ret (pvConstruction fakeDeps fakeConfig (fakePolicy .PersistentVolume) false
          (fakeState false)).1,
        ⟨(pvConstruction fakeDeps fakeConfig (fakePolicy .PersistentVolume) false
          (fakeState false)).2,
         (fakeState false).trace ++
          [.NewPVStorage "target" "default" "kubernetes.io/gce-pd" false]⟩) :=
  (setupStorage_handle_iff fakeDeps (fakeManager .PersistentVolume none none) false
    (fakeState false) (fakePolicy .PersistentVolume) rfl (Or.inl rfl)).2.1 rfl

/-- C2 as stated fails twice. With a persistent-volume policy and a constructor that
fails, `setupStorage` returns a nil handle (and the constructor's error). With a
storage type that is none of the three constants, it returns a nil handle and a nil
error although the type is not the default type. -/
theorem setupStorage_handle_counterexample :
    ((fakePolicy .PersistentVolume).StorageType = .PersistentVolume ∧
      (setupStorage fakeDeps (fakeManager .PersistentVolume none none) false
        (fakeState false)).1 = .ret (none, some ⟨"connection refused"⟩)) ∧
    ((fakePolicy (.Other "NFS")).StorageType ≠ .Default ∧
      (setupStorage fakeDeps (fakeManager (.Other "NFS") none none) false
        (fakeState true)).1 = .ret (none, none)) :=
  ⟨⟨rfl, rfl⟩, by decide, rfl⟩

/-- C6: the flag `newBackupManager` hands to the storage constructor is true exactly
when `isNewCluster` is false or the restore policy is non-nil and names the cluster
itself; the constructor is called with that flag and the flag is in its event. -/
theorem newBackupManager_expectPriorState {σ P : Type} (d : Deps σ P) (c : Config)
    (b : Option BackupPolicy) (r : Option RestorePolicy) (l : Logger) (isNewCluster : Bool)
    (st : State σ P) :
    (hasExist c r isNewCluster = true ↔
      (isNewCluster = false ∨ ∃ rp, r = some rp ∧ rp.BackupClusterName = c.Name)) ∧
    (∀ pol, b = some pol → pol.StorageType = .PersistentVolume →
      (newBackupManager d c b r l isNewCluster st).2.world =
        (pvConstruction d c pol (hasExist c r isNewCluster) st).2 ∧
      (newBackupManager d c b r l isNewCluster st).2.trace = st.trace ++
        [.NewPVStorage c.Name c.Namespace c.PVProvisioner (hasExist c r isNewCluster)]) ∧
    (∀ pol, b = some pol → pol.StorageType = .S3 →
      (newBackupManager d c b r l isNewCluster st).2.world =
        (s3Construction d c pol (hasExist c r isNewCluster) st).2 ∧
      (newBackupManager d c b r l isNewCluster st).2.trace = st.trace ++
        [.NewS3Storage c.Name c.Namespace (hasExist c r isNewCluster)]) := by
  refine ⟨?_, fun pol hb ht => ?_, fun pol hb ht => ?_⟩
  · cases isNewCluster <;> cases r <;> simp [hasExist]
  · subst hb
    unfold newBackupManager
    simp only []
    rw [setupStorage_of_PV d _ _ st pol rfl ht]
    rcases (pvConstruction d c pol (hasExist c r isNewCluster) st).1 with ⟨s, _ | e⟩ <;> simp
  · subst hb
    unfold newBackupManager
    simp only []
    rw [setupStorage_of_S3 d _ _ st pol rfl ht]
    rcases (s3Construction d c pol (hasExist c r isNewCluster) st).1 with ⟨s, _ | e⟩ <;> simp

/-- What `newBackupManager` returns after `setupStorage` returned `res`. -/
theorem newBackupManager_of_ret {σ P : Type} (d : Deps σ P) (c : Config)
    (b : Option BackupPolicy) (r : Option RestorePolicy) (l : Logger) (isNewCluster : Bool)
    (st st1 : State σ P) (res : Option (Storage σ) × Option GoError)
    (h : setupStorage d
      { logger := l, clusterConfig := c, backupPolicy := b, restorePolicy := r, s := none }
      (hasExist c r isNewCluster) st = (.ret res, st1)) :
    (∀ e, res.2 = some e →
      newBackupManager d c b r l isNewCluster st = (.ret (none, some e), st1)) ∧
    (res.2 = none →
      newBackupManager d c b r l isNewCluster st =
        (.ret (some
          { logger := l, clusterConfig := c, backupPolicy := b, restorePolicy := r,
            s := res.1 }, none), st1)) := by
  obtain ⟨s, err⟩ := res
  refine ⟨fun e he => ?_, fun he => ?_⟩
  · simp only at he
    subst he
    simp [newBackupManager, h]
  · simp only at he
    subst he
    simp [newBackupManager, h]

/-- C9: when the storage constructor (`NewPVStorage` for a persistent-volume policy,
`NewS3Storage` for an S3 policy) returns an error, `newBackupManager` returns a nil
manager and that error; when it returns no error, and for the default type, which
calls no constructor, `newBackupManager` returns no error and a manager that holds
the handle `setupStorage` produced and the config, the policies and the logger it
was given. -/
theorem newBackupManager_result {σ P : Type} (d : Deps σ P) (c : Config)
    (b : Option BackupPolicy) (r : Option RestorePolicy) (l : Logger) (isNewCluster : Bool)
    (st : State σ P) :
    (∀ pol, b = some pol → pol.StorageType = .PersistentVolume →
      (∀ e, (pvConstruction d c pol (hasExist c r isNewCluster) st).1.2 = some e →
        (newBackupManager d c b r l isNewCluster st).1 = .ret (none, some e)) ∧
      ((pvConstruction d c pol (hasExist c r isNewCluster) st).1.2 = none →
        (newBackupManager d c b r l isNewCluster st).1 =
          .ret (some
            { logger := l, clusterConfig := c, backupPolicy := b, restorePolicy := r,
              s := (pvConstruction d c pol (hasExist c r isNewCluster) st).1.1 }, none))) ∧
    (∀ pol, b = some pol → pol.StorageType = .S3 →
      (∀ e, (s3Construction d c pol (hasExist c r isNewCluster) st).1.2 = some e →
        (newBackupManager d c b r l isNewCluster st).1 = .ret (none, some e)) ∧
      ((s3Construction d c pol (hasExist c r isNewCluster) st).1.2 = none →
        (newBackupManager d c b r l isNewCluster st).1 =
          .ret (some
            { logger := l, clusterConfig := c, backupPolicy := b, restorePolicy := r,
              s := (s3Construction d c pol (hasExist c r isNewCluster) st).1.1 }, none))) ∧
    (∀ pol, b = some pol → pol.StorageType = .Default →
      newBackupManager d c b r l isNewCluster st =
        (.ret (some
          { logger := l, clusterConfig := c, backupPolicy := b, restorePolicy := r,
            s := none }, none), st)) := by
  refine ⟨fun pol hb ht => ?_, fun pol hb ht => ?_, fun pol hb ht => ?_⟩
  · have h := newBackupManager_of_ret d c b r l isNewCluster st _ _
      (setupStorage_of_PV d _ (hasExist c r isNewCluster) st pol hb ht)
    exact ⟨fun e he => by rw [h.1 e he], fun he => by rw [h.2 he]⟩
  · have h := newBackupManager_of_ret d c b r l isNewCluster st _ _
      (setupStorage_of_S3 d _ (hasExist c r isNewCluster) st pol hb ht)
    exact ⟨fun e he => by rw [h.1 e he], fun he => by rw [h.2 he]⟩
  · exact (newBackupManager_of_ret d c b r l isNewCluster st _ _
      (setupStorage_of_Default d _ (hasExist c r isNewCluster) st pol hb ht)).2 rfl

/-- C6 at a new cluster `target` that restores from its own backups: the constructor
is called with the flag set. -/
theorem newBackupManager_expectPriorState_witness :
    (newBackupManager fakeDeps fakeConfig (some (fakePolicy .PersistentVolume))
      (some ⟨"target"⟩) ⟨0⟩ true (fakeState true)).2.trace =
      [.NewPVStorage "target" "default" "kubernetes.io/gce-pd" true] :=
  ((newBackupManager_expectPriorState fakeDeps fakeConfig
    (some (fakePolicy .PersistentVolume)) (some ⟨"target"⟩) ⟨0⟩ true (fakeState true)).2.1
    (fakePolicy .PersistentVolume) rfl rfl).2

/-- C9 at a new cluster `target` with the API server down: the constructor fails and
`newBackupManager` returns a nil manager and the constructor's error. -/
theorem newBackupManager_result_witness :
    (newBackupManager fakeDeps fakeConfig (some (fakePolicy .PersistentVolume)) none ⟨0⟩ true
      (fakeState false)).1 = .ret (none, some ⟨"connection refused"⟩) :=
  ((newBackupManager_result fakeDeps fakeConfig (some (fakePolicy .PersistentVolume)) none
    ⟨0⟩ true (fakeState false)).1 (fakePolicy .PersistentVolume) rfl rfl).1
    ⟨"connection refused"⟩ rfl

end Cluster
